import Mathlib

/-!
Shallow embedding of the Spellbook card caching and indexing engine
(`backend/app/services/card_service.py`, `card_data_service.py`,
`backend/app/models/card.py`, `backend/app/api/v1/cards.py`).

Machine integers are modelled as `Nat`/`Int`; timestamps are `Int` seconds;
catalog (Scryfall) ids and oracle ids are modelled as `Nat`; fallible code
returns `Except` or carries an explicit error field.
-/

namespace Spellbook

/-- Enum `CardStorageReason` from `app/models/card.py`. -/
inductive CardStorageReason
  | searchCache
  | userCollection
  | deckUsage
  | adminImport
deriving DecidableEq, Repr

/-- The payload returned by the external (Scryfall) source for one card,
stored verbatim as `extra_data` and in the hot (Redis) tier.  Only the
fields the engine reasons about are modelled. -/
structure Payload where
  id : Nat
  oracle_id : Option Nat
  name : String
deriving DecidableEq, Repr

/-- One warm-tier row (`Card` model, table `cards`): the caching-relevant
columns of `app/models/card.py`. -/
structure CardRow where
  scryfall_id : Nat
  oracle_id : Option Nat
  name : String
  storage_reason : CardStorageReason
  permanent : Bool
  cached_at : Int
  last_accessed : Int
  extra_data : Payload
deriving DecidableEq, Repr

/-- Method `Card.make_permanent` from `app/models/card.py`: sets the storage
reason, the permanent flag, and bumps `last_accessed`. -/
def CardRow.make_permanent (r : CardRow) (reason : CardStorageReason) (now : Int) : CardRow :=
  { r with storage_reason := reason, permanent := true, last_accessed := now }

/-- Method `Card.update_access_time` from `app/models/card.py`. -/
def CardRow.update_access_time (r : CardRow) (now : Int) : CardRow :=
  { r with last_accessed := now }

/-- Seconds per day, for `timedelta(days=...)`. -/
def secondsPerDay : Int := 86400

/-- Method `CardDetailsService.cleanup_expired_cache` (`card_service.py` lines
295-329): selects warm rows with `permanent == False`,
`storage_reason == SEARCH_CACHE` and `cached_at < now - timedelta(days)`,
deletes them, and returns the number deleted together with the surviving
rows. -/
def cleanup_expired_cache (warm : List CardRow) (now : Int) (days : Nat) :
    Nat × List CardRow :=
  let cutoff_date : Int := now - (days : Int) * secondsPerDay
  let expired := warm.filter (fun c =>
    !c.permanent && c.storage_reason == CardStorageReason.searchCache
      && decide (c.cached_at < cutoff_date))
  (expired.length,
   warm.filter (fun c =>
     !(!c.permanent && c.storage_reason == CardStorageReason.searchCache
        && decide (c.cached_at < cutoff_date))))

/-- C4 helper: the Prop-level form of the eviction predicate. -/
def expiredPred (now : Int) (days : Nat) (c : CardRow) : Prop :=
  c.permanent = false ∧ c.storage_reason = CardStorageReason.searchCache ∧
    c.cached_at < now - (days : Int) * secondsPerDay

instance (now : Int) (days : Nat) (c : CardRow) : Decidable (expiredPred now days c) := by
  unfold expiredPred; infer_instance

/-- One face of a multi-faced record in the bulk dump.  `image_uris` is
`some o` when the face carries an `image_uris` object, where `o` is the
value of its `small` key (if present). -/
structure CardFace where
  image_uris : Option (Option String)
deriving DecidableEq, Repr

/-- One record of the Scryfall bulk dump as consumed by
`CardDataService._process_card` (`card_data_service.py` lines 232-274).
A field is `none` when the JSON key is absent; `card.image_uris = some o`
means the record carries an `image_uris` object whose `small` key holds
`o`. -/
structure DumpRecord where
  id : Option String
  oracle_id : Option String
  name : Option String
  layout : Option String
  set_type : Option String
  lang : Option String
  set : Option String
  collector_number : Option String
  mana_cost : Option String
  cmc : Option Nat
  type_line : Option String
  colors : Option (List String)
  rarity : Option String
  image_uris : Option (Option String)
  card_faces : List CardFace
deriving DecidableEq, Repr

/-- ASCII lower-casing of one character, as Python `str.lower` acts on
the ASCII layout/set-type/rarity tags this engine handles. -/
def charLower (c : Char) : Char :=
  if 65 ≤ c.toNat ∧ c.toNat ≤ 90 then Char.ofNat (c.toNat + 32) else c

/-- ASCII upper-casing of one character (Python `str.upper`). -/
def charUpper (c : Char) : Char :=
  if 97 ≤ c.toNat ∧ c.toNat ≤ 122 then Char.ofNat (c.toNat - 32) else c

/-- Python `s.lower()` (ASCII). -/
def strLower (s : String) : String := ⟨s.data.map charLower⟩

/-- Python `s.upper()` (ASCII). -/
def strUpper (s : String) : String := ⟨s.data.map charUpper⟩

/-- Python slicing `s[:n]`. -/
def strTake (s : String) (n : Nat) : String := ⟨s.data.take n⟩

/-- Python truthiness of `card.get(key)` for a string-valued key:
false when the key is absent or its value is the empty string. -/
def truthy : Option String → Bool
  | some s => !s.data.isEmpty
  | none => false

/-- One row of the `cards_index` search-index table as produced by the
bulk loader (`app/models/card_index.py` columns). -/
structure IndexEntry where
  scryfall_id : String
  oracle_id : Option String
  name : String
  lang : String
  set_code : String
  collector_number : String
  mana_cost : Option String
  cmc : Option Nat
  type_line : Option String
  colors : Option String
  rarity : Option String
  image_url_small : Option String
deriving DecidableEq, Repr

/-- Filtering step `CardDataService._process_card`: filters one dump record and shapes it
into an index entry (`None` means skip). -/
def process_card (card : DumpRecord) : Option IndexEntry :=
  let layout := strLower (card.layout.getD "")
  if ["token", "double_faced_token", "art_series", "emblem"].contains layout then
    none
  else
    let set_type := card.set_type.getD ""
    if ["memorabilia", "token", "minigame"].contains set_type then
      none
    else
      if !truthy card.id || !truthy card.name then
        none
      else
        let image_url : Option String :=
          match card.image_uris with
          | some (some u) => some u
          | _ =>
            match card.card_faces with
            | [] => none
            | face :: _ =>
              match face.image_uris with
              | some o => o
              | none => none
        let colors_str : Option String :=
          match card.colors with
          | some cs => if cs.isEmpty then none else some (String.join cs)
          | none => none
        some
          { scryfall_id := card.id.getD ""
            oracle_id := card.oracle_id
            name := strTake (card.name.getD "") 255
            lang := strTake (card.lang.getD "en") 5
            set_code := strUpper (strTake (card.set.getD "") 10)
            collector_number := strTake (card.collector_number.getD "") 20
            mana_cost :=
              if truthy card.mana_cost then some (strTake (card.mana_cost.getD "") 50) else none
            cmc := card.cmc
            type_line :=
              if truthy card.type_line then some (strTake (card.type_line.getD "") 255) else none
            colors :=
              match colors_str with
              | some s => if s.data.isEmpty then none else some (strTake s 10)
              | none => none
            rarity :=
              if truthy card.rarity then some (strLower (strTake (card.rarity.getD "") 20)) else none
            image_url_small :=
              match image_url with
              | some u => if u.data.isEmpty then none else some (strTake u 500)
              | none => none }

/-- The skip rule exactly as claim C6 words it: skip when the layout is
one of token/double_faced_token/art_series/emblem, or the set type is one
of memorabilia/token/minigame, or the record is missing BOTH id and name.
Modelled from the claim sentence, to be compared with `process_card`. -/
def claimed_skip (card : DumpRecord) : Bool :=
  ["token", "double_faced_token", "art_series", "emblem"].contains
      (strLower (card.layout.getD ""))
    || ["memorabilia", "token", "minigame"].contains (card.set_type.getD "")
    || (!truthy card.id && !truthy card.name)

/-- The skip rule the code actually implements: as `claimed_skip` but the
record is skipped already when id OR name is missing/empty. -/
def skip_condition (card : DumpRecord) : Bool :=
  ["token", "double_faced_token", "art_series", "emblem"].contains
      (strLower (card.layout.getD ""))
    || ["memorabilia", "token", "minigame"].contains (card.set_type.getD "")
    || !truthy card.id || !truthy card.name

/-- A playable record that has an id but no name: the code skips it,
while claim C6 says it should yield an index entry. -/
def recordWithoutName : DumpRecord :=
  { id := some "abc123", oracle_id := none, name := none, layout := some "normal"
    set_type := some "expansion", lang := none, set := none, collector_number := none
    mana_cost := none, cmc := none, type_line := none, colors := none, rarity := none
    image_uris := none, card_faces := [] }

/-- A playable record with both id and name present. -/
def boltRecord : DumpRecord :=
  { recordWithoutName with name := some "Lightning Bolt" }

/-- Lexicographic strictly-less-than on character lists (SQL text
ordering). -/
def listCharLt : List Char → List Char → Bool
  | _, [] => false
  | [], _ :: _ => true
  | a :: as, b :: bs =>
    decide (a.toNat < b.toNat) || (a.toNat == b.toNat && listCharLt as bs)

/-- Strict lexicographic order on strings. -/
def strLt (a b : String) : Bool := listCharLt a.data b.data

/-- Lexicographic `≤` on strings (ascending ORDER BY comparator). -/
def strLe (a b : String) : Bool := !listCharLt b.data a.data

/-- Whether `small` is a prefix of `big` (character lists). -/
def listStartsWith : List Char → List Char → Bool
  | [], _ => true
  | _ :: _, [] => false
  | a :: as, b :: bs => a == b && listStartsWith as bs

/-- Whether `small` occurs contiguously inside `big`. -/
def listHasSub : List Char → List Char → Bool
  | [], _ => true
  | _ :: _, [] => false
  | a :: as, b :: bs => listStartsWith (a :: as) (b :: bs) || listHasSub (a :: as) bs

/-- SQL `column LIKE '%frag%'` (case-sensitive substring). -/
def likeContains (haystack frag : String) : Bool :=
  listHasSub frag.data haystack.data

/-- SQL `column ILIKE '%frag%'` (case-insensitive substring). -/
def ilikeContains (haystack frag : String) : Bool :=
  listHasSub (strLower frag).data (strLower haystack).data

/-- Operator `ILIKE` on a nullable column: SQL `NULL` never satisfies the filter. -/
def optIlike (col : Option String) (frag : String) : Bool :=
  match col with
  | some s => ilikeContains s frag
  | none => false

/-- Operator `LIKE` on a nullable column: SQL `NULL` never satisfies the filter. -/
def optLike (col : Option String) (frag : String) : Bool :=
  match col with
  | some s => likeContains s frag
  | none => false

/-- One row of the `cards_index` table as queried by the search endpoints
(`app/models/card_index.py`), with ids as `Nat`. -/
structure CardIndexRow where
  scryfall_id : Nat
  oracle_id : Option Nat
  name : String
  lang : Option String
  set_code : Option String
  collector_number : Option String
  mana_cost : Option String
  cmc : Option Nat
  type_line : Option String
  colors : Option String
  rarity : Option String
deriving DecidableEq, Repr

/-- The `query_params` dict built by the search endpoints: the five
optional filters. -/
structure QueryParams where
  q : Option String
  colors : Option String
  set_code : Option String
  rarity : Option String
  type_line : Option String
deriving DecidableEq, Repr

/-- The filter conditions built by `_get_search_count` (`api/v1/cards.py`
lines 97-133): one Boolean predicate per supplied (truthy) filter; the
query ANDs them. -/
def get_search_count_conditions (p : QueryParams) : List (CardIndexRow → Bool) :=
  (if truthy p.q then
     [fun r => ilikeContains r.name (p.q.getD "")
        || optIlike r.type_line (p.q.getD "")]
   else [])
  ++ (if truthy p.colors then
       [fun r => optLike r.colors (p.colors.getD "")]
     else [])
  ++ (if truthy p.set_code then
       [fun r => r.set_code == some (strUpper (p.set_code.getD ""))]
     else [])
  ++ (if truthy p.rarity then
       [fun r => r.rarity == some (strLower (p.rarity.getD ""))]
     else [])
  ++ (if truthy p.type_line then
       [fun r => optIlike r.type_line (p.type_line.getD "")]
     else [])

/-- Count query `_get_search_count` (`api/v1/cards.py`): `select(func.count(...))`
with the above conditions. -/
def get_search_count (p : QueryParams) (rows : List CardIndexRow) : Nat :=
  (rows.filter (fun r => (get_search_count_conditions p).all (fun c => c r))).length

/-- The filter conditions built by `CardDetailsService._search_card_index`
(`card_service.py` lines 421-468), written from that function. -/
def search_card_index_conditions (p : QueryParams) : List (CardIndexRow → Bool) :=
  (if truthy p.q then
     [fun r => ilikeContains r.name (p.q.getD "")
        || optIlike r.type_line (p.q.getD "")]
   else [])
  ++ (if truthy p.colors then
       [fun r => optLike r.colors (p.colors.getD "")]
     else [])
  ++ (if truthy p.set_code then
       [fun r => r.set_code == some (strUpper (p.set_code.getD ""))]
     else [])
  ++ (if truthy p.rarity then
       [fun r => r.rarity == some (strLower (p.rarity.getD ""))]
     else [])
  ++ (if truthy p.type_line then
       [fun r => optIlike r.type_line (p.type_line.getD "")]
     else [])

/-- Page query `CardDetailsService._search_card_index`: filter, order by name,
paginate with offset/limit. -/
def search_card_index (p : QueryParams) (rows : List CardIndexRow)
    (limit offset : Nat) : List CardIndexRow :=
  ((((rows.filter (fun r => (search_card_index_conditions p).all (fun c => c r))).mergeSort
      (fun a b => strLe a.name b.name)).drop offset).take limit)

/-- The row conditions of `search_unique_cards` (`api/v1/cards.py` lines
156-178): `oracle_id IS NOT NULL` plus the five optional filters. -/
def search_unique_conditions (p : QueryParams) : List (CardIndexRow → Bool) :=
  [fun r => r.oracle_id.isSome]
  ++ (if truthy p.q then
       [fun r => ilikeContains r.name (p.q.getD "")
          || optIlike r.type_line (p.q.getD "")]
     else [])
  ++ (if truthy p.colors then
       [fun r => optLike r.colors (p.colors.getD "")]
     else [])
  ++ (if truthy p.set_code then
       [fun r => r.set_code == some (strUpper (p.set_code.getD ""))]
     else [])
  ++ (if truthy p.rarity then
       [fun r => r.rarity == some (strLower (p.rarity.getD ""))]
     else [])
  ++ (if truthy p.type_line then
       [fun r => optIlike r.type_line (p.type_line.getD "")]
     else [])

/-- The index rows matched by the unique-search conditions. -/
def unique_matching (p : QueryParams) (rows : List CardIndexRow) : List CardIndexRow :=
  rows.filter (fun r => (search_unique_conditions p).all (fun c => c r))

/-- The distinct oracle ids among the matching rows (the GROUP BY keys). -/
def unique_oracle_ids (p : QueryParams) (rows : List CardIndexRow) : List Nat :=
  ((unique_matching p rows).filterMap (fun r => r.oracle_id)).dedup

/-- Aggregate `func.count(CardIndex.scryfall_id)` for one oracle-id group. -/
def version_count (p : QueryParams) (rows : List CardIndexRow) (g : Nat) : Nat :=
  ((unique_matching p rows).filter (fun r => r.oracle_id == some g)).length

/-- Aggregate `func.min(CardIndex.name)` over a group of rows. -/
def min_name : List CardIndexRow → String
  | [] => ""
  | r :: rest => rest.foldl (fun acc x => if strLt x.name acc then x.name else acc) r.name

/-- The grouped unique-search query of `search_unique_cards`: one
`(oracle_id, version_count, min_name)` triple per distinct oracle id
among the matching rows, ordered by the minimum name. -/
def unique_groups (p : QueryParams) (rows : List CardIndexRow) :
    List (Nat × Nat × String) :=
  ((unique_oracle_ids p rows).map (fun g =>
    (g, version_count p rows g,
     min_name ((unique_matching p rows).filter (fun r => r.oracle_id == some g))))).mergeSort
    (fun a b => strLe a.2.2 b.2.2)

/-- Total `total_unique` of `search_unique_cards`: the count over the grouping
subquery, i.e. the number of groups. -/
def total_unique (p : QueryParams) (rows : List CardIndexRow) : Nat :=
  (unique_groups p rows).length

/-- Pagination of `search_unique_cards` applies to the group list. -/
def unique_groups_page (p : QueryParams) (rows : List CardIndexRow)
    (per_page offset : Nat) : List (Nat × Nat × String) :=
  ((unique_groups p rows).drop offset).take per_page

/-- Printings P1, P2, P3 named Bolt A/B/C share oracle group 10; P4 named
Dragon has oracle group 20 (the scenario of claim C9). -/
def scenarioRows : List CardIndexRow :=
  [⟨1, some 10, "Bolt A", none, none, none, none, none, none, none, none⟩,
   ⟨2, some 10, "Bolt B", none, none, none, none, none, none, none, none⟩,
   ⟨3, some 10, "Bolt C", none, none, none, none, none, none, none, none⟩,
   ⟨4, some 20, "Dragon", none, none, none, none, none, none, none, none⟩]

/-- The empty filter set (matches every row). -/
def noFilters : QueryParams := ⟨none, none, none, none, none⟩

/-- Outcome of the bulk-dump fetch in
`CardDataService._download_and_populate`: either some failure (network,
no suitable dump, parse error) or a successfully parsed record list. -/
inductive BulkOutcome
  | failure
  | dump (records : List DumpRecord)

/-- Status dictionary returned by `ensure_initialized`. -/
inductive InitStatus
  | already_initialized (card_count : Nat)
  | success (processed inserted : Nat)
  | error
deriving DecidableEq, Repr

/-- Side effects of one `ensure_initialized` call: number of dump
downloads attempted, index truncations, and rows handed to insert. -/
structure InitEffects where
  downloads : Nat
  clears : Nat
  inserts : Nat
deriving DecidableEq, Repr

/-- Conflict-ignore upsert keyed on `scryfall_id` (`_insert_batch` uses
`on_conflict_do_nothing(index_elements=['scryfall_id'])`). -/
def insert_ignore (rows : List IndexEntry) (e : IndexEntry) : List IndexEntry :=
  if rows.any (fun r => r.scryfall_id == e.scryfall_id) then rows else rows ++ [e]

/-- Loader step `_process_bulk_file`: each record through `_process_card`, inserted
with conflict-ignore (batch boundaries do not change the final row set). -/
def process_bulk_file (records : List DumpRecord) : List IndexEntry :=
  (records.filterMap process_card).foldl insert_ignore []

/-- Pipeline `CardDataService._download_and_populate`: on failure a structured
error result with the index untouched beyond what was already done; on a
successful download it clears the index, processes the dump and inserts
the surviving records. -/
def download_and_populate (rows : List IndexEntry) (outcome : BulkOutcome) :
    InitStatus × List IndexEntry × InitEffects :=
  match outcome with
  | .failure => (.error, rows, ⟨1, 0, 0⟩)
  | .dump records =>
      (.success records.length (records.filterMap process_card).length,
       process_bulk_file records,
       ⟨1, 1, (records.filterMap process_card).length⟩)

/-- Bootstrap guard `CardDataService.ensure_initialized` (`card_data_service.py` lines
60-82): under the initialization lock, compare the current index row
count against the minimum-valid-index threshold; if met, return
`already_initialized` with that count and do nothing else; otherwise run
the download-and-populate pipeline. -/
def ensure_initialized (rows : List IndexEntry) (min_cards : Nat)
    (outcome : BulkOutcome) : InitStatus × List IndexEntry × InitEffects :=
  if rows.length ≥ min_cards then
    (.already_initialized rows.length, rows, ⟨0, 0, 0⟩)
  else
    download_and_populate rows outcome

/-- Errors raised by `CardDetailsService` (`app/core/exceptions.py`):
`ResourceNotFoundError` and `ExternalServiceError`; both subclass
`Exception`, so a generic `except Exception` catches either. -/
inductive CardError
  | resourceNotFound
  | externalService
deriving DecidableEq, Repr

/-- Behaviour of the external source for `GET /cards/{id}`. -/
inductive FetchOutcome
  | ok (payload : Payload)
  | notFound
  | httpError (code : Nat)
  | networkError
deriving DecidableEq, Repr

/-- Fetch helper `_fetch_from_scryfall` (`card_service.py` lines 354-371): waits on
the rate limiter then issues the GET; a 404 returns `None`, any other
HTTP status error or request error re-raises. -/
def fetch_from_scryfall (fetch : Nat → FetchOutcome) (scryfall_id : Nat) :
    Except Unit (Option Payload) :=
  match fetch scryfall_id with
  | .ok p => .ok (some p)
  | .notFound => .ok none
  | .httpError _ => .error ()
  | .networkError => .error ()

/-- The tiered cache state: hot (Redis) entries, warm (`cards` table)
rows, and the set of ids present in `cards_index`. -/
structure EngineState where
  hot : List (Nat × Payload)
  warm : List CardRow
  index : List Nat
deriving DecidableEq, Repr

/-- Redis lookup `get_cached_card_details`. -/
def lookupHot (hot : List (Nat × Payload)) (scryfall_id : Nat) : Option Payload :=
  (hot.find? (fun e => e.1 == scryfall_id)).map (fun e => e.2)

/-- Redis write `cache_card_details` (replaces any entry for the id). -/
def hotPut (hot : List (Nat × Payload)) (scryfall_id : Nat) (p : Payload) :
    List (Nat × Payload) :=
  (scryfall_id, p) :: hot.filter (fun e => e.1 != scryfall_id)

/-- Lookup `_get_cached_card`: the warm-tier lookup by `scryfall_id`. -/
def get_cached_card (warm : List CardRow) (scryfall_id : Nat) : Option CardRow :=
  warm.find? (fun r => r.scryfall_id == scryfall_id)

/-- Constructor `_create_card_from_cache_data` (`card_service.py` lines 572-613): a
fresh `Card` object built from the hot-tier payload with
`storage_reason=SEARCH_CACHE`, `permanent=False` and
`cached_at = last_accessed = now`; it is transient — never added to the
session. -/
def create_card_from_cache_data (p : Payload) (now : Int) : CardRow :=
  { scryfall_id := p.id, oracle_id := p.oracle_id, name := p.name,
    storage_reason := .searchCache, permanent := false,
    cached_at := now, last_accessed := now, extra_data := p }

/-- Row builder `_store_card_details`: the row persisted after a successful external
fetch (`storage_reason=SEARCH_CACHE`, `permanent=False`,
`cached_at = last_accessed = now`). -/
def store_card_details (p : Payload) (now : Int) : CardRow :=
  { scryfall_id := p.id, oracle_id := p.oracle_id, name := p.name,
    storage_reason := .searchCache, permanent := false,
    cached_at := now, last_accessed := now, extra_data := p }

/-- Externally observable side effects of one service call: rate-limiter
waits, external fetches, warm-tier reads and writes. -/
structure Effects where
  rate_waits : Nat
  fetches : Nat
  warm_reads : Nat
  warm_writes : Nat
deriving DecidableEq, Repr

/-- No side effects. -/
def noEffects : Effects := ⟨0, 0, 0, 0⟩

/-- Componentwise sum of effects. -/
def addEffects (a b : Effects) : Effects :=
  ⟨a.rate_waits + b.rate_waits, a.fetches + b.fetches,
   a.warm_reads + b.warm_reads, a.warm_writes + b.warm_writes⟩

/-- Result of `get_card_details`: the Python call either raises
(`Except.error`) or returns a `Card`; the Boolean records whether the
returned object is a session-persistent warm row (as opposed to the
transient object of `_create_card_from_cache_data`). -/
structure GetOutcome where
  result : Except CardError (CardRow × Bool)
  state : EngineState
  eff : Effects
deriving Repr

/-- Tiered lookup `CardDetailsService.get_card_details` (`card_service.py` lines
58-115).  Step 1: unless forced, a hot (Redis) hit returns a transient
card built from the cached payload.  Step 2: unless forced, a warm hit
bumps `last_accessed`, re-caches the payload in Redis and returns the
row.  Step 3: an id absent from `cards_index` raises
`ResourceNotFoundError` (outside the try block, so it propagates).
Step 4 runs inside `try ... except Exception`: a fetch failure is wrapped
into `ExternalServiceError`, and — because the `raise
ResourceNotFoundError` for a 404 sits inside the same try — a 404 is
also wrapped into `ExternalServiceError`; a successful fetch persists the
row and caches it in Redis. -/
def get_card_details (s : EngineState) (fetch : Nat → FetchOutcome)
    (scryfall_id : Nat) (now : Int) (force_refresh : Bool) : GetOutcome :=
  match (if force_refresh then none else lookupHot s.hot scryfall_id) with
  | some redis_data =>
      { result := .ok (create_card_from_cache_data redis_data now, false),
        state := s, eff := noEffects }
  | none =>
    match (if force_refresh then none else get_cached_card s.warm scryfall_id) with
    | some cached_card =>
        { result := .ok (cached_card.update_access_time now, true),
          state := { s with
            warm := s.warm.map (fun r =>
              if r.scryfall_id == scryfall_id then r.update_access_time now else r),
            hot := hotPut s.hot scryfall_id cached_card.extra_data },
          eff := ⟨0, 0, 1, 1⟩ }
    | none =>
      if s.index.contains scryfall_id then
        match fetch_from_scryfall fetch scryfall_id with
        | .error _ =>
            { result := .error .externalService, state := s,
              eff := ⟨1, 1, (if force_refresh then 0 else 1), 0⟩ }
        | .ok none =>
            { result := .error .externalService, state := s,
              eff := ⟨1, 1, (if force_refresh then 0 else 1), 0⟩ }
        | .ok (some card_data) =>
            { result := .ok (store_card_details card_data now, true),
              state := { s with
                warm := s.warm ++ [store_card_details card_data now],
                hot := hotPut s.hot scryfall_id card_data },
              eff := ⟨1, 1, (if force_refresh then 0 else 1), 1⟩ }
      else
        { result := .error .resourceNotFound, state := s,
          eff := ⟨0, 0, (if force_refresh then 0 else 1), 0⟩ }

/-- Result of `make_card_permanent`. -/
structure PromoteOutcome where
  result : Except CardError Bool
  state : EngineState
  eff : Effects
deriving Repr

/-- Promotion `CardDetailsService.make_card_permanent` (`card_service.py` lines
117-151): look up the warm row; if absent, materialize one via
`get_card_details` (errors propagate); then `card.make_permanent(reason)`
on the returned object and `session.commit()`.  The commit persists the
mutation only when the object is session-persistent: the transient object
returned on a hot-tier hit was never added to the session, so its
mutation reaches no warm row. -/
def make_card_permanent (s : EngineState) (fetch : Nat → FetchOutcome)
    (scryfall_id : Nat) (reason : CardStorageReason) (now : Int) : PromoteOutcome :=
  match get_cached_card s.warm scryfall_id with
  | some card =>
      { result := .ok true,
        state := { s with warm := s.warm.map (fun r =>
          if r.scryfall_id == card.scryfall_id then r.make_permanent reason now else r) },
        eff := ⟨0, 0, 1, 1⟩ }
  | none =>
    match (get_card_details s fetch scryfall_id now false).result with
    | .error e =>
        { result := .error e,
          state := (get_card_details s fetch scryfall_id now false).state,
          eff := addEffects ⟨0, 0, 1, 0⟩
            (get_card_details s fetch scryfall_id now false).eff }
    | .ok (card, persisted) =>
        if persisted then
          { result := .ok true,
            state := { (get_card_details s fetch scryfall_id now false).state with
              warm := (get_card_details s fetch scryfall_id now false).state.warm.map
                (fun r => if r.scryfall_id == card.scryfall_id then
                  r.make_permanent reason now else r) },
            eff := addEffects ⟨0, 0, 1, 1⟩
              (get_card_details s fetch scryfall_id now false).eff }
        else
          { result := .ok true,
            state := (get_card_details s fetch scryfall_id now false).state,
            eff := addEffects ⟨0, 0, 1, 0⟩
              (get_card_details s fetch scryfall_id now false).eff }

/-- Sweep `cleanup_expired_cache` as a state transition. -/
def sweep_state (s : EngineState) (now : Int) (days : Nat) : EngineState :=
  { s with warm := (cleanup_expired_cache s.warm now days).2 }

/-- The `last_accessed` bump on warm reads (`Card.update_access_time` via
`_update_access_time` or the `get_card` endpoint). -/
def bump_access (s : EngineState) (scryfall_id : Nat) (now : Int) : EngineState :=
  { s with warm := s.warm.map (fun r =>
      if r.scryfall_id == scryfall_id then r.update_access_time now else r) }

/-- Redis TTL expiry removes hot entries only. -/
def hot_expire (s : EngineState) (scryfall_id : Nat) : EngineState :=
  { s with hot := s.hot.filter (fun e => e.1 != scryfall_id) }

/-- Engine states reachable from an empty-cache start by detail fetches,
promotions (any `CardStorageReason`), access bumps, eviction sweeps and
hot-tier expiry. -/
inductive Reachable : EngineState → Prop
  | init (index : List Nat) : Reachable ⟨[], [], index⟩
  | get (s : EngineState) (fetch : Nat → FetchOutcome) (cid : Nat) (now : Int)
      (fr : Bool) : Reachable s → Reachable (get_card_details s fetch cid now fr).state
  | promote (s : EngineState) (fetch : Nat → FetchOutcome) (cid : Nat)
      (reason : CardStorageReason) (now : Int) :
      Reachable s → Reachable (make_card_permanent s fetch cid reason now).state
  | bump (s : EngineState) (cid : Nat) (now : Int) :
      Reachable s → Reachable (bump_access s cid now)
  | sweep (s : EngineState) (now : Int) (days : Nat) :
      Reachable s → Reachable (sweep_state s now days)
  | hotExpire (s : EngineState) (cid : Nat) :
      Reachable s → Reachable (hot_expire s cid)

/-- As `Reachable`, but promotions carry a reason other than
`search_cache` (the callers in the repository promote only with
`USER_COLLECTION`, `DECK_USAGE` or `ADMIN_IMPORT`). -/
inductive ReachableGuarded : EngineState → Prop
  | init (index : List Nat) : ReachableGuarded ⟨[], [], index⟩
  | get (s : EngineState) (fetch : Nat → FetchOutcome) (cid : Nat) (now : Int)
      (fr : Bool) : ReachableGuarded s →
      ReachableGuarded (get_card_details s fetch cid now fr).state
  | promote (s : EngineState) (fetch : Nat → FetchOutcome) (cid : Nat)
      (reason : CardStorageReason) (now : Int) :
      reason ≠ CardStorageReason.searchCache → ReachableGuarded s →
      ReachableGuarded (make_card_permanent s fetch cid reason now).state
  | bump (s : EngineState) (cid : Nat) (now : Int) :
      ReachableGuarded s → ReachableGuarded (bump_access s cid now)
  | sweep (s : EngineState) (now : Int) (days : Nat) :
      ReachableGuarded s → ReachableGuarded (sweep_state s now days)
  | hotExpire (s : EngineState) (cid : Nat) :
      ReachableGuarded s → ReachableGuarded (hot_expire s cid)

/-- One warm row satisfies the permanence invariant. -/
def flag_ok (r : CardRow) : Bool :=
  r.permanent == !(r.storage_reason == CardStorageReason.searchCache)

/-- A fetch oracle that always answers with a fixed payload. -/
def fetchBolt : Nat → FetchOutcome := fun _ => .ok ⟨1, some 7, "Bolt"⟩

/-- A state whose hot tier holds a payload for id 1 while the warm tier
is empty (reachable e.g. by a fetch followed by an eviction sweep). -/
def hotOnlyState : EngineState := ⟨[(1, ⟨1, some 7, "Bolt"⟩)], [], [1]⟩

theorem expiredPred_iff (now : Int) (days : Nat) (c : CardRow) :
    (!c.permanent && c.storage_reason == CardStorageReason.searchCache
      && decide (c.cached_at < now - (days : Int) * secondsPerDay)) = true
      ↔ expiredPred now days c := by
  simp [expiredPred, Bool.and_assoc, and_assoc]

/-- C4: `cleanup_expired_cache(days)` deletes exactly the warm rows with
`permanent = false`, `storage_reason = search_cache` and `cached_at`
strictly earlier than `now - days`; it returns the number of rows so
deleted; a permanent row of any age survives; a non-permanent
search-cache row with `cached_at = now - days·86400 - 1` is removed and
one with `cached_at = now - days·86400 + 1` is retained. -/
theorem cleanup_deletes_exactly_expired (warm : List CardRow) (now : Int) (days : Nat) :
    (∀ c ∈ warm,
      (c ∈ (cleanup_expired_cache warm now days).2 ↔ ¬ expiredPred now days c)) ∧
    (cleanup_expired_cache warm now days).1
      = (warm.filter (fun c => decide (expiredPred now days c))).length ∧
    (∀ c ∈ warm, c.permanent = true → c ∈ (cleanup_expired_cache warm now days).2) ∧
    (∀ c ∈ warm, c.permanent = false →
      c.storage_reason = CardStorageReason.searchCache →
      c.cached_at = now - (days : Int) * secondsPerDay - 1 →
      c ∉ (cleanup_expired_cache warm now days).2) ∧
    (∀ c ∈ warm, c.cached_at = now - (days : Int) * secondsPerDay + 1 →
      c ∈ (cleanup_expired_cache warm now days).2) := by
  have hmem : ∀ c ∈ warm,
      (c ∈ (cleanup_expired_cache warm now days).2 ↔ ¬ expiredPred now days c) := by
    intro c hc
    simp only [cleanup_expired_cache, List.mem_filter, hc, true_and]
    rw [Bool.not_eq_true', Bool.eq_false_iff, ne_eq, expiredPred_iff]
  refine ⟨hmem, ?_, ?_, ?_, ?_⟩
  · simp only [cleanup_expired_cache]
    congr 1
    apply List.filter_congr
    intro c _
    rw [Bool.eq_iff_iff, decide_eq_true_eq, expiredPred_iff]
  · intro c hc hperm
    refine (hmem c hc).mpr ?_
    intro hexp
    obtain ⟨e1, _, _⟩ := hexp
    rw [hperm] at e1
    exact absurd e1 (by decide)
  · intro c hc h1 h2 h3
    rw [hmem c hc]
    refine not_not_intro ⟨h1, h2, ?_⟩
    rw [h3]
    simp only [secondsPerDay]
    omega
  · intro c hc h1
    rw [hmem c hc]
    intro hexp
    obtain ⟨_, _, h2⟩ := hexp
    rw [h1] at h2
    simp only [secondsPerDay] at h2
    omega

/-- C6 counterexample: `recordWithoutName` is not skipped according to the
claim's wording (it is not missing BOTH id and name, its layout and set
type are playable), yet `_process_card` skips it. -/
theorem process_card_counterexample :
    process_card recordWithoutName = none ∧ claimed_skip recordWithoutName = false := by
  decide

/-- C6 (amended): `_process_card` skips a dump record exactly when its
lower-cased layout is one of token/double_faced_token/art_series/emblem,
or its set type is one of memorabilia/token/minigame, or its id is
missing/empty, OR its name is missing/empty; every other record yields an
index entry whose string fields are truncated to their column widths. -/
theorem process_card_skips_iff (card : DumpRecord) :
    (process_card card = none ↔ skip_condition card = true) ∧
    (∀ e, process_card card = some e →
      e.name = strTake (card.name.getD "") 255 ∧
      e.lang = strTake (card.lang.getD "en") 5 ∧
      e.set_code = strUpper (strTake (card.set.getD "") 10) ∧
      e.collector_number = strTake (card.collector_number.getD "") 20 ∧
      e.scryfall_id = card.id.getD "" ∧
      e.oracle_id = card.oracle_id ∧
      e.cmc = card.cmc) := by
  constructor
  · simp only [process_card]
    split
    · next h => simp only [skip_condition, h, Bool.true_or]
    · next h =>
      have hA := Bool.eq_false_iff.mpr h
      split
      · next h2 =>
        simp only [skip_condition, hA, h2, Bool.false_or, Bool.true_or]
      · next h2 =>
        have hB := Bool.eq_false_iff.mpr h2
        split
        · next h3 =>
          simp only [skip_condition, hA, hB, Bool.false_or, h3]
        · next h3 =>
          have hC := Bool.eq_false_iff.mpr h3
          simp only [skip_condition, hA, hB, Bool.false_or, hC]
          simp
  · intro e he
    simp only [process_card] at he
    split at he
    · exact absurd he (by simp)
    · split at he
      · exact absurd he (by simp)
      · split at he
        · exact absurd he (by simp)
        · simp only [Option.some.injEq] at he
          subst he
          exact ⟨rfl, rfl, rfl, rfl, rfl, rfl, rfl⟩

/-- C6 witness: the iff at a concrete record, and the shaping conjunct at
a concrete record that is not skipped. -/
theorem process_card_skips_iff_witness :
    (process_card recordWithoutName = none ↔ skip_condition recordWithoutName = true) ∧
    ((process_card boltRecord).map IndexEntry.name = some "Lightning Bolt") := by
  constructor
  · exact (process_card_skips_iff recordWithoutName).1
  · rcases hp : process_card boltRecord with _ | e
    · exact absurd hp (by decide)
    · have h1 := ((process_card_skips_iff boltRecord).2 e hp).1
      simp only [Option.map_some', h1]
      decide

/-- C8: the row-selection predicate of the count query
(`_get_search_count`) and of the page query (`_search_card_index`) agree
on every row for every combination of the five filters, so the reported
`total` counts exactly the rows selected by the page query: the count
equals the length of the filtered row set of the page query, and every
row the page query returns satisfies the count predicate. -/
theorem search_count_page_filters_agree :
    (∀ p r, (get_search_count_conditions p).all (fun c => c r)
        = (search_card_index_conditions p).all (fun c => c r)) ∧
    (∀ p rows, get_search_count p rows
        = (rows.filter
            (fun r => (search_card_index_conditions p).all (fun c => c r))).length) ∧
    (∀ p rows limit offset r, r ∈ search_card_index p rows limit offset →
        (get_search_count_conditions p).all (fun c => c r) = true) := by
  refine ⟨fun p r => rfl, fun p rows => rfl, ?_⟩
  intro p rows limit offset r hr
  unfold search_card_index at hr
  have h1 : r ∈ (rows.filter
      (fun r => (search_card_index_conditions p).all (fun c => c r))).mergeSort
      (fun a b => strLe a.name b.name) :=
    List.mem_of_mem_drop (List.mem_of_mem_take hr)
  have h2 := (List.mergeSort_perm _ _).mem_iff.mp h1
  exact (List.mem_filter.mp h2).2

/-- C8 witness: the page-membership conjunct evaluated at one concrete
row and a one-filter query. -/
theorem search_count_page_filters_agree_witness :
    ((get_search_count_conditions
        ⟨some "bolt", none, none, none, none⟩).all
      (fun c => c ⟨1, none, "Lightning Bolt", none, none, none, none, none,
        some "Instant", none, none⟩)) = true := by
  refine search_count_page_filters_agree.2.2
    ⟨some "bolt", none, none, none, none⟩
    [⟨1, none, "Lightning Bolt", none, none, none, none, none, some "Instant", none, none⟩]
    5 0 _ ?_
  unfold search_card_index
  have hf : List.filter
      (fun r => (search_card_index_conditions
        ⟨some "bolt", none, none, none, none⟩).all (fun c => c r))
      [⟨1, none, "Lightning Bolt", none, none, none, none, none, some "Instant", none, none⟩]
      = [⟨1, none, "Lightning Bolt", none, none, none, none, none, some "Instant", none, none⟩] := by
    decide
  rw [hf, List.mergeSort_singleton _, List.drop_zero]
  decide

theorem length_filter_oracle_eq_count (m : List CardIndexRow) (g : Nat) :
    (m.filter (fun r => r.oracle_id == some g)).length
      = (m.filterMap (fun r => r.oracle_id)).count g := by
  induction m with
  | nil => rfl
  | cons r t ih =>
    cases hr : r.oracle_id with
    | none => simp [List.filterMap_cons, hr, List.filter_cons, ih]
    | some x =>
      by_cases hx : x = g
      · subst hx
        simp [List.filterMap_cons, hr, List.filter_cons, List.count_cons, ih]
      · simp [List.filterMap_cons, hr, List.filter_cons, List.count_cons, hx, ih,
          Ne.symm hx]

theorem sum_toFinset_count (l : List Nat) :
    ∑ a in l.toFinset, l.count a = l.length := by
  simp

theorem length_filterMap_of_isSome (m : List CardIndexRow)
    (h : ∀ r ∈ m, (r.oracle_id).isSome = true) :
    (m.filterMap (fun r => r.oracle_id)).length = m.length := by
  induction m with
  | nil => rfl
  | cons r t ih =>
    have hr := h r (List.mem_cons_self r t)
    cases hx : r.oracle_id with
    | none => rw [hx] at hr; exact absurd hr (by decide)
    | some x =>
      simp only [List.filterMap_cons, hx, List.length_cons]
      rw [ih (fun r hrm => h r (List.mem_cons_of_mem _ hrm))]

theorem unique_matching_isSome (p : QueryParams) (rows : List CardIndexRow) :
    ∀ r ∈ unique_matching p rows, (r.oracle_id).isSome = true := by
  intro r hr
  have h := (List.mem_filter.mp hr).2
  have h0 := List.all_eq_true.mp h (fun r => r.oracle_id.isSome)
    (by simp [search_unique_conditions])
  exact h0

theorem sum_dedup_count (l : List Nat) :
    (l.dedup.map (fun a => l.count a)).sum = l.length := by
  have hfs : l.dedup.toFinset = l.toFinset := by
    ext a
    simp [List.mem_toFinset, List.mem_dedup]
  have h1 : l.dedup.toFinset.sum (fun a => l.count a)
      = (l.dedup.map (fun a => l.count a)).sum :=
    List.sum_toFinset _ (List.nodup_dedup l)
  rw [← h1, hfs, sum_toFinset_count]

/-- C9: `search_unique_cards` groups the matching index rows by oracle id
(rows with a null oracle id excluded by the conditions), reports `total`
as the number of distinct groups, gives each group a `version_count`
equal to the number of matching rows sharing that oracle id (so the
version counts over all groups sum to the number of matching printings,
not to `total`), and on the concrete scenario (P1, P2, P3 sharing group
10, P4 in group 20, a filter matching all four) returns exactly one group
for 10 with `version_count = 3` and one group for 20 with
`version_count = 1`, with `total = 2`. -/
theorem search_unique_group_counts :
    (∀ p rows, total_unique p rows = (unique_oracle_ids p rows).length) ∧
    (∀ p rows g n s, (g, n, s) ∈ unique_groups p rows →
      g ∈ unique_oracle_ids p rows ∧ n = version_count p rows g) ∧
    (∀ p rows, ((unique_groups p rows).map (fun t => t.2.1)).sum
      = (unique_matching p rows).length) ∧
    (total_unique noFilters scenarioRows = 2 ∧
     (10, 3, "Bolt A") ∈ unique_groups noFilters scenarioRows ∧
     (20, 1, "Dragon") ∈ unique_groups noFilters scenarioRows) := by
  have htot : ∀ p rows, total_unique p rows = (unique_oracle_ids p rows).length := by
    intro p rows
    simp [total_unique, unique_groups, List.length_mergeSort, List.length_map]
  have hmem : ∀ p rows g n s, (g, n, s) ∈ unique_groups p rows →
      g ∈ unique_oracle_ids p rows ∧ n = version_count p rows g := by
    intro p rows g n s hgns
    have h1 := (List.mergeSort_perm _ _).mem_iff.mp hgns
    obtain ⟨g0, hg0, heq⟩ := List.mem_map.mp h1
    injection heq with he1 he2
    injection he2 with he3 he4
    subst he1
    exact ⟨hg0, he3.symm⟩
  have hsum : ∀ p rows, ((unique_groups p rows).map (fun t => t.2.1)).sum
      = (unique_matching p rows).length := by
    intro p rows
    unfold unique_groups
    rw [((List.mergeSort_perm _ (fun a b => strLe a.2.2 b.2.2)).map
      (fun t : Nat × Nat × String => t.2.1)).sum_eq, List.map_map]
    have hmc : ((unique_oracle_ids p rows).map
        ((fun t : Nat × Nat × String => t.2.1) ∘ (fun g =>
          (g, version_count p rows g,
           min_name ((unique_matching p rows).filter (fun r => r.oracle_id == some g))))))
        = (unique_oracle_ids p rows).map
          (fun g => ((unique_matching p rows).filterMap (fun r => r.oracle_id)).count g) :=
      List.map_congr_left (fun a _ => length_filter_oracle_eq_count _ _)
    rw [hmc]
    unfold unique_oracle_ids
    rw [sum_dedup_count]
    exact length_filterMap_of_isSome _ (unique_matching_isSome p rows)
  refine ⟨htot, hmem, hsum, ?_, ?_, ?_⟩
  · rw [htot]
    decide
  · unfold unique_groups
    exact (List.mergeSort_perm _ _).mem_iff.mpr (by decide)
  · unfold unique_groups
    exact (List.mergeSort_perm _ _).mem_iff.mpr (by decide)

/-- C9 witness: the group-membership conjunct applied at the concrete
scenario: group 10 is among the distinct oracle ids and its
`version_count` is 3. -/
theorem search_unique_group_counts_witness :
    10 ∈ unique_oracle_ids noFilters scenarioRows ∧
      3 = version_count noFilters scenarioRows 10 := by
  refine search_unique_group_counts.2.1 noFilters scenarioRows 10 3 "Bolt A" ?_
  unfold unique_groups
  exact (List.mergeSort_perm _ _).mem_iff.mpr (by decide)

/-- C7: when the index row count already meets the threshold,
`ensure_initialized` returns `already_initialized` with that count,
performs no download, no clear and no insert, leaves the index contents
(not merely the count) unchanged, and a second bootstrap right after
leaves the same index as the first. -/
theorem ensure_initialized_noop_when_valid (rows : List IndexEntry)
    (min_cards : Nat) (outcome outcome2 : BulkOutcome)
    (h : min_cards ≤ rows.length) :
    ensure_initialized rows min_cards outcome
      = (InitStatus.already_initialized rows.length, rows, ⟨0, 0, 0⟩) ∧
    (ensure_initialized
        (ensure_initialized rows min_cards outcome).2.1 min_cards outcome2).2.1
      = rows := by
  have haux : ∀ oc, ensure_initialized rows min_cards oc
      = (InitStatus.already_initialized rows.length, rows, ⟨0, 0, 0⟩) := by
    intro oc
    unfold ensure_initialized
    rw [if_pos h]
  refine ⟨haux outcome, ?_⟩
  simp only [haux outcome, haux outcome2]

/-- C7 witness: a one-row index with threshold 1, against a failing and
a successful second download outcome. -/
theorem ensure_initialized_noop_when_valid_witness :
    (ensure_initialized
      [⟨"a1", none, "Ash", "en", "", "", none, none, none, none, none, none⟩] 1
      BulkOutcome.failure
      = (InitStatus.already_initialized 1,
         [⟨"a1", none, "Ash", "en", "", "", none, none, none, none, none, none⟩],
         ⟨0, 0, 0⟩)) ∧
    (ensure_initialized
        (ensure_initialized
          [⟨"a1", none, "Ash", "en", "", "", none, none, none, none, none, none⟩] 1
          BulkOutcome.failure).2.1 1 (BulkOutcome.dump [boltRecord])).2.1
      = [⟨"a1", none, "Ash", "en", "", "", none, none, none, none, none, none⟩] :=
  ensure_initialized_noop_when_valid _ 1 BulkOutcome.failure
    (BulkOutcome.dump [boltRecord]) (by decide)

/-- C4 witness: a concrete three-row warm tier (a stale search-cache row,
a fresh one, and an ancient permanent row) swept at `now = 10^9`,
`days = 30`. -/
theorem cleanup_deletes_exactly_expired_witness :
    (let stale : CardRow :=
      ⟨1, none, "a", CardStorageReason.searchCache, false,
        1000000000 - 30 * 86400 - 1, 0, ⟨1, none, "a"⟩⟩
     let fresh : CardRow :=
      ⟨2, none, "b", CardStorageReason.searchCache, false,
        1000000000 - 30 * 86400 + 1, 0, ⟨2, none, "b"⟩⟩
     let perma : CardRow :=
      ⟨3, none, "c", CardStorageReason.userCollection, true, 0, 0, ⟨3, none, "c"⟩⟩
     stale ∉ (cleanup_expired_cache [stale, fresh, perma] 1000000000 30).2 ∧
       fresh ∈ (cleanup_expired_cache [stale, fresh, perma] 1000000000 30).2 ∧
       perma ∈ (cleanup_expired_cache [stale, fresh, perma] 1000000000 30).2 ∧
       (cleanup_expired_cache [stale, fresh, perma] 1000000000 30).1 = 1) := by
  refine ⟨?_, ?_, ?_, ?_⟩
  · exact (cleanup_deletes_exactly_expired _ 1000000000 30).2.2.2.1 _
      (by decide) (by decide) (by decide) (by decide)
  · exact (cleanup_deletes_exactly_expired _ 1000000000 30).2.2.2.2 _
      (by decide) (by decide)
  · exact (cleanup_deletes_exactly_expired _ 1000000000 30).2.2.1 _
      (by decide) (by decide)
  · rw [(cleanup_deletes_exactly_expired _ 1000000000 30).2.1]
    decide

/-- C2 (code bug): with empty hot and warm tiers and id 1 present in the
index, a 404-equivalent answer from the external source makes
`get_card_details` fail with `ExternalServiceError`, not the claimed
`NotFoundError`: the `raise ResourceNotFoundError` for the 404 sits
inside the `try`, and the blanket `except Exception` wraps it.  Network
errors and non-404 HTTP errors are wrapped the same way. -/
theorem get_details_404_wrapped :
    (get_card_details ⟨[], [], [1]⟩ (fun _ => FetchOutcome.notFound) 1 0 false).result
      = .error .externalService ∧
    (get_card_details ⟨[], [], [1]⟩ (fun _ => FetchOutcome.networkError) 1 0 false).result
      = .error .externalService ∧
    (get_card_details ⟨[], [], [1]⟩ (fun _ => FetchOutcome.httpError 500) 1 0 false).result
      = .error .externalService :=
  ⟨rfl, rfl, rfl⟩

/-- C3 (code bug): `hotOnlyState` (hot-tier payload for id 1, empty warm
tier) is reachable (fetch id 1, then sweep with `ttlDays = 0`); there
`make_card_permanent(1, user_collection)` returns `True` yet the warm
tier stays empty — no row with `permanent == true` exists afterwards, so
there is nothing for a sweep to retain. -/
theorem make_permanent_hot_only_no_row :
    Reachable hotOnlyState ∧
    (make_card_permanent hotOnlyState (fun _ => FetchOutcome.networkError) 1
      CardStorageReason.userCollection 0).result = .ok true ∧
    (make_card_permanent hotOnlyState (fun _ => FetchOutcome.networkError) 1
      CardStorageReason.userCollection 0).state.warm = [] := by
  refine ⟨?_, rfl, rfl⟩
  have h1 := Reachable.get ⟨[], [], [1]⟩ fetchBolt 1 (-1) false (Reachable.init [1])
  have h2 := Reachable.sweep _ 1 0 h1
  exact h2

/-- C5: when the id misses the hot tier, the warm tier and the
`cards_index`, `get_card_details` raises `ResourceNotFoundError` (outside
the try block, so it propagates unchanged), leaves the state untouched,
and performs zero rate-limiter waits and zero external fetches. -/
theorem get_details_unknown_id (s : EngineState) (fetch : Nat → FetchOutcome)
    (cid : Nat) (now : Int) (fr : Bool)
    (hhot : lookupHot s.hot cid = none)
    (hwarm : get_cached_card s.warm cid = none)
    (hidx : cid ∉ s.index) :
    get_card_details s fetch cid now fr
      = { result := .error .resourceNotFound, state := s,
          eff := ⟨0, 0, (if fr then 0 else 1), 0⟩ } := by
  cases fr <;> simp [get_card_details, hhot, hwarm, hidx]

/-- C5 witness: id 5 against completely empty tiers and index. -/
theorem get_details_unknown_id_witness :
    get_card_details ⟨[], [], []⟩ (fun _ => FetchOutcome.notFound) 5 0 false
      = { result := .error .resourceNotFound, state := ⟨[], [], []⟩,
          eff := ⟨0, 0, 1, 0⟩ } :=
  get_details_unknown_id ⟨[], [], []⟩ (fun _ => FetchOutcome.notFound) 5 0 false
    rfl rfl (by decide)

/-- C10: when the hot tier holds a payload for the id and
`force_refresh` is false, `get_card_details` returns the transient card
built by `_create_card_from_cache_data` from that payload alone —
`permanent = False`, `storage_reason = search_cache`,
`cached_at = last_accessed = now`, independent of any warm-tier row —
with the state unchanged and no warm-tier read or write, no rate-limiter
wait and no fetch. -/
theorem get_details_hot_hit (s : EngineState) (fetch : Nat → FetchOutcome)
    (cid : Nat) (now : Int) (p : Payload)
    (hhot : lookupHot s.hot cid = some p) :
    get_card_details s fetch cid now false
      = { result := .ok (create_card_from_cache_data p now, false),
          state := s, eff := noEffects } ∧
    (create_card_from_cache_data p now).permanent = false ∧
    (create_card_from_cache_data p now).storage_reason = CardStorageReason.searchCache ∧
    (create_card_from_cache_data p now).cached_at = now ∧
    (create_card_from_cache_data p now).last_accessed = now := by
  refine ⟨?_, rfl, rfl, rfl, rfl⟩
  simp [get_card_details, hhot]

theorem flag_ok_update_access (r : CardRow) (now : Int) :
    flag_ok (r.update_access_time now) = flag_ok r := rfl

theorem flag_ok_make_permanent (r : CardRow) (reason : CardStorageReason)
    (now : Int) (h : reason ≠ CardStorageReason.searchCache) :
    flag_ok (r.make_permanent reason now) = true := by
  cases reason
  · exact absurd rfl h
  · rfl
  · rfl
  · rfl

theorem flag_ok_map_promote (warm : List CardRow) (cid : Nat)
    (reason : CardStorageReason) (now : Int)
    (hreason : reason ≠ CardStorageReason.searchCache)
    (h : ∀ r ∈ warm, flag_ok r = true) :
    ∀ r ∈ warm.map
      (fun r => if r.scryfall_id == cid then r.make_permanent reason now else r),
      flag_ok r = true := by
  intro r hr
  obtain ⟨r0, hr0, heq⟩ := List.mem_map.mp hr
  by_cases hc : (r0.scryfall_id == cid) = true
  · rw [if_pos hc] at heq
    rw [← heq]
    exact flag_ok_make_permanent r0 reason now hreason
  · rw [if_neg hc] at heq
    rw [← heq]
    exact h r0 hr0

theorem flag_ok_map_bump (warm : List CardRow) (cid : Nat) (now : Int)
    (h : ∀ r ∈ warm, flag_ok r = true) :
    ∀ r ∈ warm.map
      (fun r => if r.scryfall_id == cid then r.update_access_time now else r),
      flag_ok r = true := by
  intro r hr
  obtain ⟨r0, hr0, heq⟩ := List.mem_map.mp hr
  by_cases hc : (r0.scryfall_id == cid) = true
  · rw [if_pos hc] at heq
    rw [← heq, flag_ok_update_access]
    exact h r0 hr0
  · rw [if_neg hc] at heq
    rw [← heq]
    exact h r0 hr0

theorem warm_flags_get (s : EngineState) (fetch : Nat → FetchOutcome) (cid : Nat)
    (now : Int) (fr : Bool) (h : ∀ r ∈ s.warm, flag_ok r = true) :
    ∀ r ∈ (get_card_details s fetch cid now fr).state.warm, flag_ok r = true := by
  unfold get_card_details
  split
  · exact h
  · split
    · exact flag_ok_map_bump s.warm cid now h
    · split
      · split
        · exact h
        · exact h
        · intro r hr
          rcases List.mem_append.mp hr with h1 | h2
          · exact h r h1
          · rw [List.mem_singleton.mp h2]
            rfl
      · exact h

theorem warm_flags_promote (s : EngineState) (fetch : Nat → FetchOutcome)
    (cid : Nat) (reason : CardStorageReason) (now : Int)
    (hreason : reason ≠ CardStorageReason.searchCache)
    (h : ∀ r ∈ s.warm, flag_ok r = true) :
    ∀ r ∈ (make_card_permanent s fetch cid reason now).state.warm,
      flag_ok r = true := by
  unfold make_card_permanent
  split
  · exact flag_ok_map_promote s.warm _ reason now hreason h
  · have hg := warm_flags_get s fetch cid now false h
    split
    · exact hg
    · split
      · exact flag_ok_map_promote _ _ reason now hreason hg
      · exact hg

theorem flag_ok_iff (r : CardRow) :
    flag_ok r = true
      ↔ (r.permanent = true ↔ r.storage_reason ≠ CardStorageReason.searchCache) := by
  cases hp : r.permanent <;> cases hs : r.storage_reason <;> simp [flag_ok, hp, hs]

/-- C1 (amended): provided `make_card_permanent` is only invoked with a
reason other than `search_cache` — as every caller in the repository
does — every reachable state satisfies the invariant: a warm row has
`permanent == true` exactly when its `storage_reason != search_cache`,
and every operation (storing a fetched card, bumping access time,
promotion, eviction sweep, hot-tier expiry) preserves this. -/
theorem permanence_invariant_guarded (s : EngineState) (h : ReachableGuarded s) :
    ∀ r ∈ s.warm,
      (r.permanent = true ↔ r.storage_reason ≠ CardStorageReason.searchCache) := by
  have key : ∀ r ∈ s.warm, flag_ok r = true := by
    induction h with
    | init index =>
        intro r hr
        exact absurd hr (List.not_mem_nil r)
    | get s fetch cid now fr hs ih => exact warm_flags_get s fetch cid now fr ih
    | promote s fetch cid reason now hreason hs ih =>
        exact warm_flags_promote s fetch cid reason now hreason ih
    | bump s cid now hs ih => exact flag_ok_map_bump s.warm cid now ih
    | sweep s now days hs ih =>
        intro r hr
        exact ih r (List.mem_of_mem_filter hr)
    | hotExpire s cid hs ih => exact ih
  intro r hr
  exact (flag_ok_iff r).mp (key r hr)

/-- C1 counterexample: the state reached by fetching id 1 and then
promoting it with reason `search_cache` (a legal `CardStorageReason`
accepted by `make_card_permanent`) holds a warm row with
`permanent == true` and `storage_reason == search_cache`, violating the
claimed invariant. -/
theorem permanence_invariant_counterexample :
    Reachable (make_card_permanent
        (get_card_details ⟨[], [], [1]⟩ fetchBolt 1 0 false).state
        fetchBolt 1 CardStorageReason.searchCache 0).state ∧
    ¬ (∀ r ∈ (make_card_permanent
        (get_card_details ⟨[], [], [1]⟩ fetchBolt 1 0 false).state
        fetchBolt 1 CardStorageReason.searchCache 0).state.warm,
        (r.permanent = true ↔ r.storage_reason ≠ CardStorageReason.searchCache)) := by
  constructor
  · exact Reachable.promote _ fetchBolt 1 CardStorageReason.searchCache 0
      (Reachable.get _ fetchBolt 1 0 false (Reachable.init [1]))
  · decide

/-- C1 witness: the invariant holds on the concrete warm row obtained by
fetching id 1 and promoting it with reason `user_collection`. -/
theorem permanence_invariant_guarded_witness :
    ((⟨1, some 7, "Bolt", CardStorageReason.userCollection, true, 0, 0,
        ⟨1, some 7, "Bolt"⟩⟩ : CardRow).permanent = true
      ↔ (⟨1, some 7, "Bolt", CardStorageReason.userCollection, true, 0, 0,
        ⟨1, some 7, "Bolt"⟩⟩ : CardRow).storage_reason
          ≠ CardStorageReason.searchCache) :=
  permanence_invariant_guarded
    (make_card_permanent (get_card_details ⟨[], [], [1]⟩ fetchBolt 1 0 false).state
      fetchBolt 1 CardStorageReason.userCollection 0).state
    (ReachableGuarded.promote _ fetchBolt 1 CardStorageReason.userCollection 0
      (by decide) (ReachableGuarded.get _ fetchBolt 1 0 false (ReachableGuarded.init [1])))
    _ (by decide)

/-- C10 witness: a hot-tier hit for id 1 in `hotOnlyState` at time 5. -/
theorem get_details_hot_hit_witness :
    get_card_details hotOnlyState (fun _ => FetchOutcome.networkError) 1 5 false
      = { result := .ok (create_card_from_cache_data ⟨1, some 7, "Bolt"⟩ 5, false),
          state := hotOnlyState, eff := noEffects } :=
  (get_details_hot_hit hotOnlyState (fun _ => FetchOutcome.networkError) 1 5
    ⟨1, some 7, "Bolt"⟩ rfl).1

end Spellbook
